import Mathlib

/-!
Verification of the Eightpoint custom Checkov policy checks
(src/policies/checkov/custom_policies.py).

The embedding models the Python data flow directly: a configuration
record is an association list from attribute names to dynamically typed
values; Python truthiness, indexing, membership and comparison are given
explicit partial semantics, with a Python exception modelled as `none`.
Each `scan_resource_conf` method becomes a function
`Conf -> Option Verdict`, where `some v` is a returned verdict and
`none` marks an input on which the Python code would raise.
-/

namespace Eightpoint

/-- Verdict enumeration as in checkov CheckResult (the fallback class defines
the same four members). -/
inductive Verdict where
  | PASSED
  | FAILED
  | SKIPPED
  | UNKNOWN
deriving DecidableEq, Repr

/-- Dynamically typed Python value: the shapes that occur in a parsed
terraform configuration record. -/
inductive Val where
  | str : String → Val
  | bool : Bool → Val
  | int : Int → Val
  | list : List Val → Val
  | dict : List (String × Val) → Val
deriving Repr

/-- A configuration record: attribute name to value, as handed to
scan_resource_conf. -/
def Conf := List (String × Val)

/-- Char-list test: p is an initial segment of s. -/
def isPrefList : List Char → List Char → Bool
  | [], _ => true
  | _ :: _, [] => false
  | p :: ps, c :: cs => p == c && isPrefList ps cs

/-- Char-list test: pat occurs contiguously somewhere in s. -/
def subList (pat : List Char) : List Char → Bool
  | [] => isPrefList pat []
  | c :: cs => isPrefList pat (c :: cs) || subList pat cs

/-- Split a char list at every occurrence of the separator character,
like Python str.split with a one-character separator. -/
def splitCh (sep : Char) : List Char → List (List Char)
  | [] => [[]]
  | c :: cs =>
      match splitCh sep cs with
      | [] => if c == sep then [[], []] else [[c]]
      | h :: t => if c == sep then [] :: h :: t else (c :: h) :: t

/-- Python `s.startswith(p)`. -/
def pyStartsWith (s p : String) : Bool :=
  isPrefList p.data s.data

/-- Python `pat in s` for strings. -/
def strContains (s pat : String) : Bool :=
  subList pat.data s.data

/-- Python `s.split('-')`. -/
def pySplitDash (s : String) : List String :=
  (splitCh (Char.ofNat 45) s.data).map (fun l => String.mk l)

/-- Python `s.lower()` (ASCII case folding, as the compared literals are
ASCII). -/
def pyLower (s : String) : String :=
  String.mk (s.data.map Char.toLower)

/-- Python truthiness of a value. -/
def truthy : Val → Bool
  | .str s => s ≠ ""
  | .bool b => b
  | .int n => n ≠ 0
  | .list l => !l.isEmpty
  | .dict d => !d.isEmpty

/-- Python truthiness when the value may be absent (None is falsy). -/
def truthyO : Option Val → Bool
  | none => false
  | some v => truthy v

/-- The idiom `if x and isinstance(x, list): x = x[0]` shared by several
checks: a truthy list is necessarily non-empty, so its head is taken;
every other value is left unchanged. -/
def unwrapIfList : Option Val → Option Val
  | some (.list (x :: _)) => some x
  | v => v

/-- Python `v[0]` for the values the checks index: head of a non-empty
list, first character of a non-empty string; anything else raises
(IndexError, KeyError or TypeError), modelled as `none`. -/
def pyIndex0 : Val → Option Val
  | .list (x :: _) => some x
  | .list [] => none
  | .str s => if s = "" then none else some (.str (String.mk (s.data.take 1)))
  | _ => none

/-- Equality of a value with a string, as Python `v == s`: only equal
strings compare equal; values of other types are unequal (no error). -/
def valEqStr (v : Val) (s : String) : Bool :=
  match v with
  | .str t => t == s
  | _ => false

/-- Python `s in v`: key membership for a dict, substring for a string,
element membership for a list; TypeError (none) for int and bool. -/
def pyIn (s : String) (v : Val) : Option Bool :=
  match v with
  | .dict d => some (d.lookup s).isSome
  | .str t => some (strContains t s)
  | .list l => some (l.any (fun x => valEqStr x s))
  | _ => none

/-- Python `v.get(k, dflt)`: defined only for a dict; any other receiver
raises AttributeError (none). -/
def dictGet (v : Val) (k : String) (dflt : Val) : Option Val :=
  match v with
  | .dict d => some ((d.lookup k).getD dflt)
  | _ => none

/-- Coerce to a string, as the Python methods .lower / .startswith /
.split demand; a non-string receiver raises AttributeError (none). -/
def asStr : Val → Option String
  | .str s => some s
  | _ => none

/-- Python `v >= n` against an int literal: ints compare numerically,
bools as 0 / 1; any other type raises TypeError (none). -/
def pyGE (v : Val) (n : Int) : Option Bool :=
  match v with
  | .int m => some (decide (n ≤ m))
  | .bool b => some (decide (n ≤ (if b then (1 : Int) else 0)))
  | _ => none

/-- CKV_EIGHTPOINT_001, EightpointS3BucketNaming.scan_resource_conf. -/
def scan001 (conf : Conf) : Option Verdict :=
  let bucket_name := unwrapIfList (conf.lookup "bucket")
  if truthyO bucket_name then
    match bucket_name with
    | some (Val.str s) =>
        let has_valid_start := ["ios-", "android-", "shared-", "mob-"].any (fun p => pyStartsWith s p)
        let has_valid_env := ["-dev-", "-prod-", "-global-"].any (fun e => strContains s e)
        some (if has_valid_start && has_valid_env then Verdict.PASSED else Verdict.FAILED)
    | _ => none
  else some Verdict.FAILED

/-- Tag-key presence loop of CKV_EIGHTPOINT_002 followed by the three
value validations, applied to the already extracted tags_dict. -/
def scan002core (td : Val) : Option Verdict :=
  match pyIn "Team" td with
  | none => none
  | some false => some Verdict.FAILED
  | some true =>
  match pyIn "Environment" td with
  | none => none
  | some false => some Verdict.FAILED
  | some true =>
  match pyIn "Project" td with
  | none => none
  | some false => some Verdict.FAILED
  | some true =>
  match pyIn "ManagedBy" td with
  | none => none
  | some false => some Verdict.FAILED
  | some true =>
  match dictGet td "Team" (Val.str "") with
  | none => none
  | some teamV =>
  match asStr teamV with
  | none => none
  | some team =>
  if !(["ios", "android", "shared"].contains (pyLower team)) then some Verdict.FAILED
  else
  match dictGet td "Environment" (Val.str "") with
  | none => none
  | some envV =>
  match asStr envV with
  | none => none
  | some env =>
  if !(["dev", "prod", "global", "test"].contains (pyLower env)) then some Verdict.FAILED
  else
  match dictGet td "ManagedBy" (Val.str "") with
  | none => none
  | some mbV =>
  match asStr mbV with
  | none => none
  | some mb =>
  if (pyLower mb) != "terraform" then some Verdict.FAILED
  else some Verdict.PASSED

/-- CKV_EIGHTPOINT_002, EightpointResourceTagging.scan_resource_conf.
`if not tags or not isinstance(tags, list): return FAILED` leaves
exactly the non-empty-list case to proceed to `tags[0]`. -/
def scan002 (conf : Conf) : Option Verdict :=
  match conf.lookup "tags" with
  | some (Val.list (td :: _)) => scan002core td
  | _ => some Verdict.FAILED

/-- CKV_EIGHTPOINT_003, EightpointSecurityGroupNaming.scan_resource_conf. -/
def scan003 (conf : Conf) : Option Verdict :=
  let sg_name := unwrapIfList (conf.lookup "name")
  if truthyO sg_name then
    match sg_name with
    | some (Val.str s) =>
        let parts := pySplitDash s
        if parts.length < 4 then some Verdict.FAILED
        else if !(["ios", "android", "shared"].contains (parts.getD 0 "")) then some Verdict.FAILED
        else if !(["dev", "prod", "global"].contains (parts.getD 1 "")) then some Verdict.FAILED
        else some Verdict.PASSED
    | _ => none
  else some Verdict.FAILED

/-- CKV_EIGHTPOINT_004, EightpointIAMRoleNaming.scan_resource_conf:
same structure as 003 with lower-cased part comparisons. -/
def scan004 (conf : Conf) : Option Verdict :=
  let role_name := unwrapIfList (conf.lookup "name")
  if truthyO role_name then
    match role_name with
    | some (Val.str s) =>
        let parts := pySplitDash s
        if parts.length < 4 then some Verdict.FAILED
        else if !(["ios", "android", "shared"].contains (pyLower (parts.getD 0 ""))) then some Verdict.FAILED
        else if !(["dev", "prod", "global"].contains (pyLower (parts.getD 1 ""))) then some Verdict.FAILED
        else some Verdict.PASSED
    | _ => none
  else some Verdict.FAILED

/-- CKV_EIGHTPOINT_005, EightpointKMSKeyRotation.scan_resource_conf.
Models `tags = conf.get('tags', [{}])`, `tags_dict = tags[0] if tags
else {}`, the guarded description extraction, the short-circuit
production test, and the rotation branch. -/
def scan005 (conf : Conf) : Option Verdict :=
  let tags := (conf.lookup "tags").getD (Val.list [Val.dict []])
  match (if truthy tags then pyIndex0 tags else some (Val.dict [])) with
  | none => none
  | some tags_dict =>
  match (if truthyO (conf.lookup "description")
         then pyIndex0 ((conf.lookup "description").getD (Val.list [Val.str ""]))
         else some (Val.str "")) with
  | none => none
  | some description =>
  match dictGet tags_dict "Environment" (Val.str "") with
  | none => none
  | some envV =>
  match asStr envV with
  | none => none
  | some env =>
  match (if pyLower env == "prod" then some true
         else match asStr description with
              | none => none
              | some d => some (strContains (pyLower d) "prod" || strContains (pyLower d) "production")) with
  | none => none
  | some is_prod =>
  if is_prod then
    match conf.lookup "enable_key_rotation" with
    | some (Val.list (x :: _)) => some (if truthy x then Verdict.PASSED else Verdict.FAILED)
    | _ => some Verdict.FAILED
  else some Verdict.PASSED

/-- CKV_EIGHTPOINT_006, EightpointRDSBackupRetention.scan_resource_conf. -/
def scan006 (conf : Conf) : Option Verdict :=
  let tags := (conf.lookup "tags").getD (Val.list [Val.dict []])
  match (if truthy tags then pyIndex0 tags else some (Val.dict [])) with
  | none => none
  | some tags_dict =>
  match dictGet tags_dict "Environment" (Val.str "") with
  | none => none
  | some envV =>
  match asStr envV with
  | none => none
  | some env0 =>
  let environment := pyLower env0
  match conf.lookup "backup_retention_period" with
  | some (Val.list (x :: _)) =>
      if environment == "prod" || environment == "production" then
        match pyGE x 7 with
        | none => none
        | some b => some (if b then Verdict.PASSED else Verdict.FAILED)
      else
        match pyGE x 1 with
        | none => none
        | some b => some (if b then Verdict.PASSED else Verdict.FAILED)
  | _ => some Verdict.FAILED

/-- CKV_EIGHTPOINT_007, EightpointEKSEndpointAccess.scan_resource_conf. -/
def scan007 (conf : Conf) : Option Verdict :=
  match conf.lookup "vpc_config" with
  | some (Val.list (vc :: _)) =>
    (match dictGet vc "endpoint_private_access" (Val.list [Val.bool false]) with
     | none => none
     | some pav =>
     match pyIndex0 pav with
     | none => none
     | some private_access =>
     if !truthy private_access then some Verdict.FAILED
     else
     match dictGet vc "endpoint_public_access" (Val.list [Val.bool true]) with
     | none => none
     | some puv =>
     match pyIndex0 puv with
     | none => none
     | some public_access =>
     if truthy public_access then
       match dictGet vc "public_access_cidrs" (Val.list []) with
       | none => none
       | some public_cidrs =>
       if !truthy public_cidrs then some Verdict.FAILED
       else match pyIn "0.0.0.0/0" public_cidrs with
            | none => none
            | some b => some (if b then Verdict.FAILED else Verdict.PASSED)
     else some Verdict.PASSED)
  | _ => some Verdict.FAILED

/-- Test for the list constructor, Python isinstance(v, list). -/
def isListVal : Val → Bool
  | .list _ => true
  | _ => false

/-- Every value of the association list is a string, the shape of a tag
mapping in the data model. -/
def allStrTags (td : List (String × Val)) : Bool :=
  td.all (fun kv => match kv.2 with | .str _ => true | _ => false)

/-- String stored under a key of a tag mapping, empty string when absent
(mirrors `tags_dict.get(k, '')` on a string-valued mapping). -/
def tagStr (td : List (String × Val)) (k : String) : String :=
  match td.lookup k with
  | some (Val.str s) => s
  | _ => ""

/-- The check-002 predicate as the specification words it: the four
required keys are present, Team and Environment lower-case to an allowed
value, and ManagedBy lower-cases to terraform. -/
def tagsPassed (td : List (String × Val)) : Bool :=
  (["Team", "Environment", "Project", "ManagedBy"].all (fun k => (td.lookup k).isSome))
  && (["ios", "android", "shared"].contains (pyLower (tagStr td "Team")))
  && (["dev", "prod", "global", "test"].contains (pyLower (tagStr td "Environment")))
  && (pyLower (tagStr td "ManagedBy") == "terraform")

/-- Shape condition under which the name-based checks cannot raise: the
attribute, after the one-level unwrap, is absent, a string, or falsy. -/
def nameOK (v : Option Val) : Bool :=
  match unwrapIfList v with
  | none => true
  | some (Val.str _) => true
  | some w => !truthy w

/-- Shape condition on a tags attribute under which checks 002, 005 and
006 cannot raise: when truthy it is a sequence headed by a string-valued
mapping. -/
def tagsOK (v : Option Val) : Bool :=
  match v with
  | none => true
  | some (Val.list (Val.dict td :: _)) => allStrTags td
  | some (Val.list (_ :: _)) => false
  | some w => !truthy w

/-- Shape condition on a description attribute under which check 005
cannot raise: a string, a sequence headed by a string, or falsy. -/
def descOK (v : Option Val) : Bool :=
  match v with
  | none => true
  | some (Val.str _) => true
  | some (Val.list (Val.str _ :: _)) => true
  | some w => !truthy w

/-- Shape condition on a backup_retention_period attribute under which
check 006 cannot raise: when it is a non-empty sequence, its head is
numeric. -/
def retOK (v : Option Val) : Bool :=
  match v with
  | some (Val.list (Val.int _ :: _)) => true
  | some (Val.list (Val.bool _ :: _)) => true
  | some (Val.list (_ :: _)) => false
  | _ => true

/-- Shape condition on a vpc_config attribute under which check 007
cannot raise: when it is a non-empty sequence, its head is a mapping
whose endpoint flags index at 0 and whose cidrs value supports the
membership test whenever it is reached. -/
def vpcOK (v : Option Val) : Bool :=
  match v with
  | some (Val.list (Val.dict d :: _)) =>
      (match d.lookup "endpoint_private_access" with
       | none => true
       | some pv => (pyIndex0 pv).isSome)
      && (match d.lookup "endpoint_public_access" with
          | none => true
          | some pv => (pyIndex0 pv).isSome)
      && (match d.lookup "public_access_cidrs" with
          | none => true
          | some (Val.int n) => !truthy (Val.int n)
          | some (Val.bool b) => !truthy (Val.bool b)
          | some _ => true)
  | some (Val.list (_ :: _)) => false
  | _ => true

/-- A record all of whose attributes relevant to the seven checks carry
values of the expected shapes (the data model of the specification). -/
def WellShaped (conf : Conf) : Bool :=
  nameOK (conf.lookup "bucket")
  && nameOK (conf.lookup "name")
  && tagsOK (conf.lookup "tags")
  && descOK (conf.lookup "description")
  && retOK (conf.lookup "backup_retention_period")
  && vpcOK (conf.lookup "vpc_config")

/-- Builder for check-007 inputs in the data model: a vpc_config mapping
with the optional wrapped endpoint flags and optional cidr list. -/
def mkVpc (priv pub : Option Bool) (cidrs : Option (List String)) : Val :=
  Val.dict
    ((match priv with
      | some b => [("endpoint_private_access", Val.list [Val.bool b])]
      | none => [])
     ++ (match pub with
         | some b => [("endpoint_public_access", Val.list [Val.bool b])]
         | none => [])
     ++ (match cidrs with
         | some cs => [("public_access_cidrs", Val.list (cs.map Val.str))]
         | none => []))

/-- Builder for check-005 inputs in the data model: optional Environment
tag, optional wrapped description, optional wrapped rotation flag. -/
def mkKms (envTag descr : Option String) (rot : Option Bool) : Conf :=
  (match envTag with
   | some e => [("tags", Val.list [Val.dict [("Environment", Val.str e)]])]
   | none => [])
  ++ (match descr with
      | some d => [("description", Val.list [Val.str d])]
      | none => [])
  ++ (match rot with
      | some b => [("enable_key_rotation", Val.list [Val.bool b])]
      | none => [])

/-- Builder for check-006 inputs in the data model: optional Environment
tag and optional wrapped integer retention period. -/
def mkRds (envTag : Option String) (ret : Option Int) : Conf :=
  (match envTag with
   | some e => [("tags", Val.list [Val.dict [("Environment", Val.str e)]])]
   | none => [])
  ++ (match ret with
      | some n => [("backup_retention_period", Val.list [Val.int n])]
      | none => [])

/-- C1 counterexample: the record whose tags attribute holds the valid
tag mapping bare is FAILED by check 002, while the record holding the
same mapping wrapped as a one-element sequence is PASSED, so wrapping a
bare mapping in a one-element sequence does change a verdict. -/
theorem c1_wrapping_changes_scan002_verdict :
    scan002 [("tags", Val.dict [("Team", Val.str "ios"), ("Environment", Val.str "dev"),
        ("Project", Val.str "x"), ("ManagedBy", Val.str "terraform")])] = some Verdict.FAILED
  ∧ scan002 [("tags", Val.list [Val.dict [("Team", Val.str "ios"), ("Environment", Val.str "dev"),
        ("Project", Val.str "x"), ("ManagedBy", Val.str "terraform")]])] = some Verdict.PASSED :=
  ⟨by decide, by decide⟩

/-- C1 (amended): wrapping the examined string attribute in a one-element
sequence preserves the verdict for the three name-based checks 001, 003
and 004; the remaining checks unwrap ad hoc and can distinguish bare
from wrapped values. -/
theorem c1_wrapping_preserved_for_naming_checks (conf : Conf) (s : String) :
    scan001 (("bucket", Val.str s) :: conf) = scan001 (("bucket", Val.list [Val.str s]) :: conf)
  ∧ scan003 (("name", Val.str s) :: conf) = scan003 (("name", Val.list [Val.str s]) :: conf)
  ∧ scan004 (("name", Val.str s) :: conf) = scan004 (("name", Val.list [Val.str s]) :: conf) :=
  ⟨rfl, rfl, rfl⟩

/-- C7: check 001 fails when the bucket attribute is absent or an empty
sequence, and otherwise passes exactly when the unwrapped bucket name
starts with a valid team token and contains a valid environment token. -/
theorem c7_s3_bucket_naming (conf : Conf) :
    (conf.lookup "bucket" = none → scan001 conf = some Verdict.FAILED)
  ∧ (∀ s : String,
      (conf.lookup "bucket" = some (Val.str s) ∨
        ∃ rest, conf.lookup "bucket" = some (Val.list (Val.str s :: rest))) →
      scan001 conf =
        some (if (["ios-", "android-", "shared-", "mob-"].any (fun p => pyStartsWith s p))
                 && (["-dev-", "-prod-", "-global-"].any (fun e => strContains s e))
              then Verdict.PASSED else Verdict.FAILED))
  ∧ (conf.lookup "bucket" = some (Val.list []) → scan001 conf = some Verdict.FAILED) := by
  refine ⟨?_, ?_, ?_⟩
  · intro h
    simp [scan001, h, unwrapIfList, truthyO]
  · rintro s (h | ⟨rest, h⟩) <;>
    · by_cases hs : s = ""
      · subst hs
        simp [scan001, h, unwrapIfList, truthyO, truthy]
        decide
      · simp [scan001, h, unwrapIfList, truthyO, truthy, hs]
  · intro h
    simp [scan001, h, unwrapIfList, truthyO, truthy]

/-- C7 witness: the theorem applied to the spec test vectors. -/
theorem c7_s3_bucket_naming_witness :
    scan001 [("bucket", Val.list [Val.str "ios-dev-terraform-state"])] = some Verdict.PASSED
  ∧ scan001 [] = some Verdict.FAILED := by
  constructor
  · exact ((c7_s3_bucket_naming
      [("bucket", Val.list [Val.str "ios-dev-terraform-state"])]).2.1 "ios-dev-terraform-state"
      (Or.inr ⟨[], rfl⟩)).trans (by decide)
  · exact (c7_s3_bucket_naming []).1 rfl

/-- C10: for checks 001, 003 and 004 an examined attribute holding the
empty string, bare or wrapped as a one-element sequence, yields FAILED,
exactly the verdict of a missing attribute. -/
theorem c10_empty_string_like_absent (conf : Conf) :
    ((conf.lookup "bucket" = some (Val.str "") ∨
        conf.lookup "bucket" = some (Val.list [Val.str ""])) →
        scan001 conf = some Verdict.FAILED)
  ∧ ((conf.lookup "name" = some (Val.str "") ∨
        conf.lookup "name" = some (Val.list [Val.str ""])) →
        scan003 conf = some Verdict.FAILED)
  ∧ ((conf.lookup "name" = some (Val.str "") ∨
        conf.lookup "name" = some (Val.list [Val.str ""])) →
        scan004 conf = some Verdict.FAILED)
  ∧ (conf.lookup "bucket" = none → scan001 conf = some Verdict.FAILED)
  ∧ (conf.lookup "name" = none →
        scan003 conf = some Verdict.FAILED ∧ scan004 conf = some Verdict.FAILED) := by
  refine ⟨?_, ?_, ?_, ?_, ?_⟩
  · rintro (h | h) <;> simp [scan001, h, unwrapIfList, truthyO, truthy]
  · rintro (h | h) <;> simp [scan003, h, unwrapIfList, truthyO, truthy]
  · rintro (h | h) <;> simp [scan004, h, unwrapIfList, truthyO, truthy]
  · intro h
    simp [scan001, h, unwrapIfList, truthyO]
  · intro h
    constructor <;> simp [scan003, scan004, h, unwrapIfList, truthyO]

/-- C10 witness: the theorem applied at concrete records. -/
theorem c10_empty_string_like_absent_witness :
    scan001 [("bucket", Val.str "")] = some Verdict.FAILED
  ∧ scan003 [("name", Val.list [Val.str ""])] = some Verdict.FAILED
  ∧ scan004 [("name", Val.str "")] = some Verdict.FAILED :=
  ⟨(c10_empty_string_like_absent _).1 (Or.inl rfl),
   (c10_empty_string_like_absent _).2.1 (Or.inr rfl),
   (c10_empty_string_like_absent _).2.2.1 (Or.inl rfl)⟩

/-- C8: whenever check 003 passes a name, check 004 passes the same
name, and the name IOS-dev-eks-cluster separates them: 003 compares the
team and environment parts exact-case and fails it, 004 lower-cases
first and passes it. -/
theorem c8_scan003_passed_implies_scan004_passed :
    (∀ (c3 c4 : Conf) (s : String),
        unwrapIfList (c3.lookup "name") = some (Val.str s) →
        unwrapIfList (c4.lookup "name") = some (Val.str s) →
        scan003 c3 = some Verdict.PASSED → scan004 c4 = some Verdict.PASSED)
  ∧ scan003 [("name", Val.str "IOS-dev-eks-cluster")] = some Verdict.FAILED
  ∧ scan004 [("name", Val.str "IOS-dev-eks-cluster")] = some Verdict.PASSED := by
  refine ⟨?_, by decide, by decide⟩
  intro c3 c4 s h3 h4 hp
  by_cases hs : s = ""
  · subst hs
    simp [scan003, h3, truthyO, truthy] at hp
  · simp only [scan003, h3, truthyO, truthy] at hp
    simp only [scan004, h4, truthyO, truthy]
    simp only [hs, decide_not, decide_False, Bool.not_false, if_true, ne_eq,
      not_false_iff, decide_True] at hp ⊢
    split at hp
    · simp at hp
    · rename_i hlen
      split at hp
      · simp at hp
      · rename_i hteam
        split at hp
        · simp at hp
        · rename_i henv
          simp at hteam henv
          have hT : (pySplitDash s)[0]?.getD "" = "ios" ∨
              (pySplitDash s)[0]?.getD "" = "android" ∨
              (pySplitDash s)[0]?.getD "" = "shared" := by tauto
          have hE : (pySplitDash s)[1]?.getD "" = "dev" ∨
              (pySplitDash s)[1]?.getD "" = "prod" ∨
              (pySplitDash s)[1]?.getD "" = "global" := by tauto
          rw [if_neg hlen]
          rcases hT with h | h | h <;> rcases hE with h2 | h2 | h2 <;>
            simp only [List.getD_eq_getElem?_getD, h, h2] <;> decide

/-- C8 witness: the implication applied at the passing spec vector. -/
theorem c8_scan003_passed_implies_scan004_passed_witness :
    scan004 [("name", Val.str "ios-dev-eks-cluster")] = some Verdict.PASSED :=
  c8_scan003_passed_implies_scan004_passed.1
    [("name", Val.str "ios-dev-eks-cluster")] [("name", Val.str "ios-dev-eks-cluster")]
    "ios-dev-eks-cluster" rfl rfl (by decide)

/-- Membership of a string among string-wrapped values reduces to plain
string membership. -/
theorem any_map_valEqStr (cs : List String) (t : String) :
    (cs.map Val.str).any (fun x => valEqStr x t) = cs.any (fun c => c == t) := by
  induction cs with
  | nil => rfl
  | cons c cs ih =>
      show (valEqStr (Val.str c) t || (cs.map Val.str).any fun x => valEqStr x t)
        = (c == t || cs.any fun x => x == t)
      rw [ih]
      simp [valEqStr]

/-- C3: check 007 fails when vpc_config is absent; otherwise, with the
private flag defaulting to false and the public flag to true when
absent, it fails when private access is false, and with private access
true and public access true it fails exactly when the cidr list is
absent, empty or contains 0.0.0.0/0, while public access false passes
with no cidr check. -/
theorem c3_eks_endpoint_access :
    (∀ conf : Conf, conf.lookup "vpc_config" = none → scan007 conf = some Verdict.FAILED)
  ∧ (∀ (priv pub : Option Bool) (cidrs : Option (List String)) (rest : Conf),
      scan007 (("vpc_config", Val.list [mkVpc priv pub cidrs]) :: rest) =
        some (if priv.getD false = false then Verdict.FAILED
              else if pub.getD true = true then
                match cidrs with
                | none => Verdict.FAILED
                | some cs =>
                    if cs.isEmpty || cs.any (fun c => c == "0.0.0.0/0") then Verdict.FAILED
                    else Verdict.PASSED
              else Verdict.PASSED)) := by
  constructor
  · intro conf h
    simp [scan007, h]
  · intro priv pub cidrs rest
    rcases priv with _ | pb
    · rcases pub with _ | qb <;> rcases cidrs with _ | cs <;>
        simp [scan007, mkVpc, dictGet, pyIndex0, truthy, pyIn, List.lookup]
    · rcases pb with _ | _
      · rcases pub with _ | qb <;> rcases cidrs with _ | cs <;>
          simp [scan007, mkVpc, dictGet, pyIndex0, truthy, pyIn, List.lookup]
      · rcases pub with _ | qb
        · rcases cidrs with _ | cs
          · simp [scan007, mkVpc, dictGet, pyIndex0, truthy, pyIn, List.lookup]
          · cases cs with
            | nil => simp [scan007, mkVpc, dictGet, pyIndex0, truthy, pyIn, List.lookup]
            | cons c cs =>
                simp [scan007, mkVpc, dictGet, pyIndex0, truthy, pyIn, List.lookup,
                  any_map_valEqStr, valEqStr]
        · rcases qb with _ | _
          · rcases cidrs with _ | cs <;>
              simp [scan007, mkVpc, dictGet, pyIndex0, truthy, pyIn, List.lookup]
          · rcases cidrs with _ | cs
            · simp [scan007, mkVpc, dictGet, pyIndex0, truthy, pyIn, List.lookup]
            · cases cs with
              | nil => simp [scan007, mkVpc, dictGet, pyIndex0, truthy, pyIn, List.lookup]
              | cons c cs =>
                  simp [scan007, mkVpc, dictGet, pyIndex0, truthy, pyIn, List.lookup,
                    any_map_valEqStr, valEqStr]

/-- C3 witness: the theorem applied to the spec test vectors. -/
theorem c3_eks_endpoint_access_witness :
    scan007 [] = some Verdict.FAILED
  ∧ scan007 [("vpc_config", Val.list [mkVpc (some true) (some true) (some ["10.0.0.0/8"])])] =
      some Verdict.PASSED := by
  constructor
  · exact c3_eks_endpoint_access.1 [] rfl
  · exact (c3_eks_endpoint_access.2 (some true) (some true) (some ["10.0.0.0/8"]) []).trans
      (by decide)

/-- C4: check 005 classifies a record as production exactly when the
lower-cased Environment tag equals prod or the lower-cased description
contains prod or production; non-production records pass regardless of
the rotation attribute, and production records pass exactly when the
wrapped rotation flag is present and true. -/
theorem c4_kms_rotation_verdict (envTag descr : Option String) (rot : Option Bool) :
    scan005 (mkKms envTag descr rot) =
      some (if (pyLower (envTag.getD "") == "prod"
                || strContains (pyLower (descr.getD "")) "prod"
                || strContains (pyLower (descr.getD "")) "production")
            then (if rot = some true then Verdict.PASSED else Verdict.FAILED)
            else Verdict.PASSED) := by
  have hP0 : (pyLower "" == "prod") = false := by decide
  have hC0 : strContains (pyLower "") "prod" = false := by decide
  have hC1 : strContains (pyLower "") "production" = false := by decide
  rcases envTag with _ | e
  · rcases descr with _ | d
    · rcases rot with _ | b <;> try rcases b with _ | _
      all_goals
        simp [scan005, mkKms, dictGet, pyIndex0, asStr, truthy, truthyO, List.lookup,
          hP0, hC0, hC1]
    · by_cases hcd : (strContains (pyLower d) "prod" || strContains (pyLower d) "production") = true <;>
        · rcases rot with _ | b <;> try rcases b with _ | _
          all_goals
            simp [scan005, mkKms, dictGet, pyIndex0, asStr, truthy, truthyO, List.lookup,
              hP0, hC0, hC1, hcd]
  · by_cases hp : (pyLower e == "prod") = true
    · rcases descr with _ | d <;>
        · rcases rot with _ | b <;> try rcases b with _ | _
          all_goals
            simp [scan005, mkKms, dictGet, pyIndex0, asStr, truthy, truthyO, List.lookup, hp]
    · rcases descr with _ | d
      · rcases rot with _ | b <;> try rcases b with _ | _
        all_goals
          simp [scan005, mkKms, dictGet, pyIndex0, asStr, truthy, truthyO, List.lookup,
            hp, hC0, hC1]
      · by_cases hcd : (strContains (pyLower d) "prod" || strContains (pyLower d) "production") = true <;>
          · rcases rot with _ | b <;> try rcases b with _ | _
            all_goals
              simp [scan005, mkKms, dictGet, pyIndex0, asStr, truthy, truthyO, List.lookup,
                hp, hcd]

/-- C5: check 006 fails when backup_retention_period is absent;
otherwise, with the lower-cased Environment tag (empty when tags or the
tag are missing), a prod or production environment passes exactly when
the retention is at least 7 and every other environment passes exactly
when the retention is at least 1. -/
theorem c5_rds_backup_retention (envTag : Option String) (ret : Option Int) :
    scan006 (mkRds envTag ret) =
      some (match ret with
            | none => Verdict.FAILED
            | some n =>
                if pyLower (envTag.getD "") == "prod" || pyLower (envTag.getD "") == "production"
                then (if 7 ≤ n then Verdict.PASSED else Verdict.FAILED)
                else (if 1 ≤ n then Verdict.PASSED else Verdict.FAILED)) := by
  have hP0 : (pyLower "" == "prod") = false := by decide
  have hP1 : (pyLower "" == "production") = false := by decide
  rcases envTag with _ | e
  · rcases ret with _ | n <;>
      simp [scan006, mkRds, dictGet, pyIndex0, asStr, truthy, truthyO, pyGE, List.lookup,
        hP0, hP1]
  · by_cases hp : (pyLower e == "prod" || pyLower e == "production") = true <;>
      rcases ret with _ | n <;>
        simp [scan006, mkRds, dictGet, pyIndex0, asStr, truthy, truthyO, pyGE, List.lookup, hp]

/-- C9: the verdict of check 002 depends only on the four required tag
keys: two records whose unwrapped tag mappings agree on the presence and
values of Team, Environment, Project and ManagedBy receive the same
result, so any other tag key never changes the verdict. -/
theorem c9_scan002_depends_only_on_required_keys (c1 c2 : Conf)
    (d1 d2 : List (String × Val)) (r1 r2 : List Val)
    (h1 : c1.lookup "tags" = some (Val.list (Val.dict d1 :: r1)))
    (h2 : c2.lookup "tags" = some (Val.list (Val.dict d2 :: r2)))
    (hT : d1.lookup "Team" = d2.lookup "Team")
    (hE : d1.lookup "Environment" = d2.lookup "Environment")
    (hP : d1.lookup "Project" = d2.lookup "Project")
    (hM : d1.lookup "ManagedBy" = d2.lookup "ManagedBy") :
    scan002 c1 = scan002 c2 := by
  simp only [scan002, h1, h2]
  simp only [scan002core, pyIn, dictGet, hT, hE, hP, hM]

/-- C9 witness: adding a CostCenter tag leaves the verdict unchanged. -/
theorem c9_scan002_depends_only_on_required_keys_witness :
    scan002 [("tags", Val.list [Val.dict [("Team", Val.str "ios"),
        ("Environment", Val.str "dev"), ("Project", Val.str "x"),
        ("ManagedBy", Val.str "terraform")]])]
  = scan002 [("tags", Val.list [Val.dict [("Team", Val.str "ios"),
        ("Environment", Val.str "dev"), ("Project", Val.str "x"),
        ("ManagedBy", Val.str "terraform"), ("CostCenter", Val.str "42")]])] :=
  c9_scan002_depends_only_on_required_keys _ _ _ _ _ _ rfl rfl rfl rfl rfl rfl

/-- On a string-valued tag mapping, `tags_dict.get(k, '')` yields the
string recorded by tagStr. -/
theorem getD_tagStr (td : List (String × Val)) (k : String) :
    allStrTags td = true → (td.lookup k).getD (Val.str "") = Val.str (tagStr td k) := by
  induction td with
  | nil => intro; rfl
  | cons kv td ih =>
      intro h
      obtain ⟨k2, v⟩ := kv
      rw [allStrTags, List.all_cons, Bool.and_eq_true] at h
      obtain ⟨hv, ht⟩ := h
      rcases v with s | b | n | l | d
      · simp only [List.lookup, tagStr]
        cases hk : k == k2
        · simpa [tagStr] using ih ht
        · simp
      all_goals simp at hv

/-- On a string-valued tag mapping, scan002core decides exactly the
tagsPassed predicate. -/
theorem scan002core_eq_tagsPassed (td : List (String × Val)) (h : allStrTags td = true) :
    scan002core (Val.dict td) =
      some (if tagsPassed td then Verdict.PASSED else Verdict.FAILED) := by
  have hT := getD_tagStr td "Team" h
  have hE := getD_tagStr td "Environment" h
  have hM := getD_tagStr td "ManagedBy" h
  simp only [scan002core, pyIn, dictGet, hT, hE, hM, asStr, tagsPassed]
  cases hpT : (td.lookup "Team").isSome <;>
    cases hpE : (td.lookup "Environment").isSome <;>
      cases hpP : (td.lookup "Project").isSome <;>
        cases hpM : (td.lookup "ManagedBy").isSome <;>
          simp [hpT, hpE, hpP, hpM]
  all_goals (split_ifs <;> first | rfl | tauto)

/-- C6 counterexample: a tags attribute holding a one-element sequence
whose element is not a mapping does not unwrap to a mapping, yet check
002 does not return FAILED there: the membership test on the unwrapped
value raises TypeError (modelled none), refuting the clause that every
record whose tags does not unwrap to a mapping is FAILED. -/
theorem c6_wrapped_nonmapping_raises :
    scan002 [("tags", Val.list [Val.bool true])] = none := by decide

/-- C6 (amended): check 002 fails when tags is absent, not a sequence, or an empty
sequence; on a sequence headed by a string-valued mapping it fails when
one of Team, Environment, Project, ManagedBy is absent (an empty string
value still counts present), or when the lower-cased Team, Environment
or ManagedBy value is outside its allowed set, and passes otherwise
(Project may hold any value). -/
theorem c6_resource_tagging (conf : Conf) :
    (conf.lookup "tags" = none → scan002 conf = some Verdict.FAILED)
  ∧ (∀ v, conf.lookup "tags" = some v → isListVal v = false →
      scan002 conf = some Verdict.FAILED)
  ∧ (conf.lookup "tags" = some (Val.list []) → scan002 conf = some Verdict.FAILED)
  ∧ (∀ td rest, conf.lookup "tags" = some (Val.list (Val.dict td :: rest)) →
      allStrTags td = true →
      scan002 conf = some (if tagsPassed td then Verdict.PASSED else Verdict.FAILED)) := by
  refine ⟨?_, ?_, ?_, ?_⟩
  · intro h
    simp [scan002, h]
  · intro v h hv
    rcases v with s | b | n | l | d
    · simp [scan002, h]
    · simp [scan002, h]
    · simp [scan002, h]
    · simp [isListVal] at hv
    · simp [scan002, h]
  · intro h
    simp [scan002, h]
  · intro td rest h hs
    rw [scan002, h]
    exact scan002core_eq_tagsPassed td hs

/-- C6 witness: the theorem applied to the passing spec vector with the
case-insensitive ManagedBy value, and to a record without tags. -/
theorem c6_resource_tagging_witness :
    scan002 [("tags", Val.list [Val.dict [("Team", Val.str "ios"),
        ("Environment", Val.str "dev"), ("Project", Val.str "x"),
        ("ManagedBy", Val.str "Terraform")]])] = some Verdict.PASSED
  ∧ scan002 [] = some Verdict.FAILED := by
  constructor
  · exact ((c6_resource_tagging [("tags", Val.list [Val.dict [("Team", Val.str "ios"),
      ("Environment", Val.str "dev"), ("Project", Val.str "x"),
      ("ManagedBy", Val.str "Terraform")]])]).2.2.2 [("Team", Val.str "ios"),
      ("Environment", Val.str "dev"), ("Project", Val.str "x"),
      ("ManagedBy", Val.str "Terraform")] [] rfl (by decide)).trans (by decide)
  · exact (c6_resource_tagging []).1 rfl

/-- An if-expression whose branches are both some is always isSome. -/
theorem isSome_ite_some {A : Type} (c : Prop) [Decidable c] (a b : A) :
    (if c then some a else some b).isSome = true := by
  split <;> rfl

/-- Totality of check 001 on a well-shaped bucket attribute. -/
theorem scan001_total (conf : Conf) (h : nameOK (conf.lookup "bucket") = true) :
    (scan001 conf).isSome = true := by
  rw [scan001, nameOK] at *
  cases hu : unwrapIfList (conf.lookup "bucket") with
  | none => simp [truthyO]
  | some v =>
      rw [hu] at h
      rcases v with s | b | n | l | d
      · split <;> simp
      all_goals
        simp [truthy] at h
        simp [truthyO, truthy, h]

/-- Totality of check 003 on a well-shaped name attribute. -/
theorem scan003_total (conf : Conf) (h : nameOK (conf.lookup "name") = true) :
    (scan003 conf).isSome = true := by
  rw [scan003, nameOK] at *
  cases hu : unwrapIfList (conf.lookup "name") with
  | none => simp [truthyO]
  | some v =>
      rw [hu] at h
      rcases v with s | b | n | l | d
      · split
        · dsimp only
          repeat first | rfl | split
        · simp
      all_goals
        simp [truthy] at h
        simp [truthyO, truthy, h]

/-- Totality of check 004 on a well-shaped name attribute. -/
theorem scan004_total (conf : Conf) (h : nameOK (conf.lookup "name") = true) :
    (scan004 conf).isSome = true := by
  rw [scan004, nameOK] at *
  cases hu : unwrapIfList (conf.lookup "name") with
  | none => simp [truthyO]
  | some v =>
      rw [hu] at h
      rcases v with s | b | n | l | d
      · split
        · dsimp only
          repeat first | rfl | split
        · simp
      all_goals
        simp [truthy] at h
        simp [truthyO, truthy, h]

/-- Totality of check 002 on a well-shaped tags attribute. -/
theorem scan002_total (conf : Conf) (h : tagsOK (conf.lookup "tags") = true) :
    (scan002 conf).isSome = true := by
  rw [scan002]
  cases hl : conf.lookup "tags" with
  | none => simp
  | some v =>
      rw [hl] at h
      rcases v with s | b | n | l | d
      · simp
      · simp
      · simp
      · cases l with
        | nil => simp
        | cons x xs =>
            rcases x with s | b | n | l2 | td
            · simp [tagsOK] at h
            · simp [tagsOK] at h
            · simp [tagsOK] at h
            · simp [tagsOK] at h
            · show (scan002core (Val.dict td)).isSome = true
              rw [scan002core_eq_tagsPassed td (by simpa [tagsOK] using h)]
              simp
      · simp

/-- The tags extraction stage shared by checks 005 and 006 always yields
a string-valued mapping on a well-shaped tags attribute. -/
theorem tagsStage_total (conf : Conf) (h : tagsOK (conf.lookup "tags") = true) :
    ∃ td : List (String × Val), allStrTags td = true ∧
      (if truthy ((conf.lookup "tags").getD (Val.list [Val.dict []]))
       then pyIndex0 ((conf.lookup "tags").getD (Val.list [Val.dict []]))
       else some (Val.dict [])) = some (Val.dict td) := by
  cases hl : conf.lookup "tags" with
  | none => exact ⟨[], rfl, rfl⟩
  | some v =>
      rw [hl] at h
      rcases v with s | b | n | l | d
      · simp [tagsOK, truthy] at h
        exact ⟨[], rfl, by simp [truthy, h]⟩
      · simp [tagsOK, truthy] at h
        exact ⟨[], rfl, by simp [truthy, h]⟩
      · simp [tagsOK, truthy] at h
        exact ⟨[], rfl, by simp [truthy, h]⟩
      · cases l with
        | nil => exact ⟨[], rfl, by simp [truthy]⟩
        | cons x xs =>
            rcases x with s | b | n | l2 | td
            · simp [tagsOK] at h
            · simp [tagsOK] at h
            · simp [tagsOK] at h
            · simp [tagsOK] at h
            · exact ⟨td, by simpa [tagsOK] using h, by simp [truthy, pyIndex0]⟩
      · simp [tagsOK, truthy] at h
        exact ⟨[], rfl, by simp [truthy, h]⟩

/-- The description extraction stage of check 005 always yields a string
on a well-shaped description attribute. -/
theorem descStage_total (conf : Conf) (h : descOK (conf.lookup "description") = true) :
    ∃ s : String,
      (if truthyO (conf.lookup "description")
       then pyIndex0 ((conf.lookup "description").getD (Val.list [Val.str ""]))
       else some (Val.str "")) = some (Val.str s) := by
  cases hl : conf.lookup "description" with
  | none => exact ⟨"", by simp [truthyO]⟩
  | some v =>
      rw [hl] at h
      rcases v with s | b | n | l | d
      · by_cases hs : s = ""
        · subst hs
          exact ⟨"", by simp [truthyO, truthy]⟩
        · exact ⟨String.mk (s.data.take 1), by simp [truthyO, truthy, hs, pyIndex0]⟩
      · simp [descOK, truthy] at h
        exact ⟨"", by simp [truthyO, truthy, h]⟩
      · simp [descOK, truthy] at h
        exact ⟨"", by simp [truthyO, truthy, h]⟩
      · cases l with
        | nil => exact ⟨"", by simp [truthyO, truthy]⟩
        | cons x xs =>
            rcases x with s | b | n | l2 | d2
            · exact ⟨s, by simp [truthyO, truthy, pyIndex0]⟩
            all_goals simp [descOK, truthy] at h
      · simp [descOK, truthy] at h
        exact ⟨"", by simp [truthyO, truthy, h]⟩

/-- Totality of check 005 on well-shaped tags and description. -/
theorem scan005_total (conf : Conf) (h1 : tagsOK (conf.lookup "tags") = true)
    (h2 : descOK (conf.lookup "description") = true) :
    (scan005 conf).isSome = true := by
  obtain ⟨td, hstr, hstage⟩ := tagsStage_total conf h1
  obtain ⟨ds, hdesc⟩ := descStage_total conf h2
  simp only [scan005]
  rw [hstage, hdesc]
  simp only [dictGet, getD_tagStr td "Environment" hstr, asStr]
  cases hp : (pyLower (tagStr td "Environment") == "prod")
  all_goals (
    cases hr : conf.lookup "enable_key_rotation" with
    | none => simp [hp, hr, apply_ite]
    | some v =>
        rcases v with s | b | n | l | d2
        · simp [hp, hr, apply_ite]
        · simp [hp, hr, apply_ite]
        · simp [hp, hr, apply_ite]
        · cases l with
          | nil => simp [hp, hr, apply_ite]
          | cons x xs => simp [hp, hr, apply_ite]
        · simp [hp, hr, apply_ite])

/-- Totality of check 006 on well-shaped tags and retention. -/
theorem scan006_total (conf : Conf) (h1 : tagsOK (conf.lookup "tags") = true)
    (h3 : retOK (conf.lookup "backup_retention_period") = true) :
    (scan006 conf).isSome = true := by
  obtain ⟨td, hstr, hstage⟩ := tagsStage_total conf h1
  simp only [scan006]
  rw [hstage]
  simp only [dictGet, getD_tagStr td "Environment" hstr, asStr]
  cases hb : conf.lookup "backup_retention_period" with
  | none => simp
  | some v =>
      rw [hb] at h3
      rcases v with s | b | n | l | d
      · simp
      · simp
      · simp
      · cases l with
        | nil => simp
        | cons x xs =>
            rcases x with s | b | n | l2 | d2
            · simp [retOK] at h3
            · dsimp only [pyGE]
              exact isSome_ite_some _ _ _
            · dsimp only [pyGE]
              exact isSome_ite_some _ _ _
            · simp [retOK] at h3
            · simp [retOK] at h3
      · simp

/-- Totality of check 007 on a well-shaped vpc_config attribute. -/
theorem scan007_total (conf : Conf) (h : vpcOK (conf.lookup "vpc_config") = true) :
    (scan007 conf).isSome = true := by
  rw [scan007]
  cases hl : conf.lookup "vpc_config" with
  | none => simp
  | some v =>
      rw [hl] at h
      rcases v with s | b | n | l | d
      · simp
      · simp
      · simp
      · cases l with
        | nil => simp
        | cons vc rest =>
            rcases vc with s | b | n | l2 | d
            · simp [vpcOK] at h
            · simp [vpcOK] at h
            · simp [vpcOK] at h
            · simp [vpcOK] at h
            · simp only [vpcOK, Bool.and_eq_true] at h
              obtain ⟨⟨hpa, hpu⟩, hci⟩ := h
              simp only [dictGet]
              cases hA : d.lookup "endpoint_private_access" with
              | none => simp [pyIndex0, truthy]
              | some pv =>
                  rw [hA] at hpa
                  simp only [] at hpa
                  obtain ⟨pa, hpa2⟩ := Option.isSome_iff_exists.mp hpa
                  rw [Option.getD_some, hpa2]
                  cases htp : truthy pa
                  · simp [htp]
                  · simp only [htp, Bool.not_true, Bool.false_eq_true, if_false]
                    cases hB : d.lookup "endpoint_public_access" with
                    | none =>
                        simp only [Option.getD_none, pyIndex0]
                        cases hC : d.lookup "public_access_cidrs" with
                        | none => simp [truthy]
                        | some cv =>
                            rw [hC] at hci
                            rcases cv with s | b | n | l3 | d3
                            · dsimp only [pyIn]
                              repeat first | rfl | split
                            · simp [truthy] at hci
                              simp [truthy, hci]
                            · simp [truthy] at hci
                              simp [truthy, hci]
                            · dsimp only [pyIn]
                              repeat first | rfl | split
                            · dsimp only [pyIn]
                              repeat first | rfl | split
                    | some pv2 =>
                        rw [hB] at hpu
                        simp only [] at hpu
                        obtain ⟨pu, hpu2⟩ := Option.isSome_iff_exists.mp hpu
                        rw [Option.getD_some, hpu2]
                        cases htu : truthy pu
                        · simp [htu]
                        · simp only [htu, if_true]
                          cases hC : d.lookup "public_access_cidrs" with
                          | none => simp [truthy]
                          | some cv =>
                              rw [hC] at hci
                              rcases cv with s | b | n | l3 | d3
                              · dsimp only [pyIn]
                                repeat first | rfl | split
                              · simp [truthy] at hci
                                simp [truthy, hci]
                              · simp [truthy] at hci
                                simp [truthy, hci]
                              · dsimp only [pyIn]
                                repeat first | rfl | split
                              · dsimp only [pyIn]
                                repeat first | rfl | split
      · simp

/-- C2 counterexample: an ill-typed attribute value makes the check
raise (modelled none) instead of returning FAILED: a non-numeric
backup_retention_period raises TypeError in check 006, a non-string name
raises AttributeError in check 003, and a non-mapping inside the tags
sequence raises TypeError in check 002. -/
theorem c2_illtyped_values_raise :
    scan006 [("backup_retention_period", Val.list [Val.str "x"])] = none
  ∧ scan003 [("name", Val.int 5)] = none
  ∧ scan002 [("tags", Val.list [Val.int 5])] = none :=
  ⟨by decide, by decide, by decide⟩

/-- C2 (amended): on every record whose relevant attributes are
well-shaped, each of the seven checks returns a verdict, with missing or
falsy attributes mapped to FAILED rather than raised; ill-typed
attribute values are outside this guarantee because the code raises on
them. -/
theorem c2_checks_total_on_wellshaped (conf : Conf) (h : WellShaped conf = true) :
    (scan001 conf).isSome = true ∧ (scan002 conf).isSome = true
  ∧ (scan003 conf).isSome = true ∧ (scan004 conf).isSome = true
  ∧ (scan005 conf).isSome = true ∧ (scan006 conf).isSome = true
  ∧ (scan007 conf).isSome = true := by
  rw [WellShaped] at h
  simp only [Bool.and_eq_true] at h
  obtain ⟨⟨⟨⟨⟨h1, h2⟩, h3⟩, h4⟩, h5⟩, h6⟩ := h
  exact ⟨scan001_total conf h1, scan002_total conf h3, scan003_total conf h2,
    scan004_total conf h2, scan005_total conf h3 h4, scan006_total conf h3 h5,
    scan007_total conf h6⟩

/-- C2 witness: the theorem applied at a concrete well-shaped record. -/
theorem c2_checks_total_on_wellshaped_witness :
    WellShaped [("bucket", Val.list [Val.str "ios-dev-terraform-state"]),
      ("tags", Val.list [Val.dict [("Team", Val.str "ios")]])] = true
  ∧ (scan002 [("bucket", Val.list [Val.str "ios-dev-terraform-state"]),
      ("tags", Val.list [Val.dict [("Team", Val.str "ios")]])]).isSome = true :=
  ⟨by decide,
   (c2_checks_total_on_wellshaped [("bucket", Val.list [Val.str "ios-dev-terraform-state"]),
      ("tags", Val.list [Val.dict [("Team", Val.str "ios")]])] (by decide)).2.1⟩

end Eightpoint
